import Mathlib

/-
Shallow embedding of the KB-iGOT report-generation-service core
(src/app/services/report_service.py and report_service_v2.py):
org-hierarchy resolution with its module-level cache, the authorization
check, the declarative filter engine, the three query assemblers, and the
streaming CSV row transformers with optional field masking.

Python strings are embedded as Lean `String` (or `List Char` where
character-level reasoning is needed), Python `None`/missing values as
`Option`, exceptions as `Except`, and the module-level TTL cache as an
explicit association list threaded through each call.  The TTL and
size-eviction behaviour of `cachetools.TTLCache` is not modelled (no
notion of time); only its mapping semantics are, which is all the claims
below depend on.  Crucially, Python list objects stored in the cache are
aliased by callers: `org_list.append(...)` mutates the very object held
by the cache, which the embedding models by explicitly writing the
appended list back into the cache map.
-/

namespace ReportGen

/-- Python exception payload (the message of the raised exception). -/
abbrev PyErr := String

/-- One row of the flat org-hierarchy table (`MASTER_ORG_HIERARCHY_TABLE`):
a leaf org id together with its (nullable) department and ministry ids. -/
structure HierarchyRow where
  mdo_id : String
  department_id : Option String
  ministry_id : Option String
deriving DecidableEq, Repr

/-- Semantics of the single BigQuery statement issued by
`ReportService._get_mdo_id_org_list` (report_service.py lines 275-307):
`level_check` computes whether the input id occurs as a ministry value or
as a department value anywhere in the table; the department branch is
kept only when the id is a department and not a ministry, the ministry
branch whenever it is a ministry; the result is the `UNION ALL` of the
two guarded branches. -/
def orgHierarchyQuery (table : List HierarchyRow) (inputId : String) : List String :=
  let is_ministry := table.any (fun r => r.ministry_id == some inputId)
  let is_department := table.any (fun r => r.department_id == some inputId)
  let orgs_from_department :=
    (table.filter (fun r => r.department_id == some inputId)).map (fun r => r.mdo_id)
  let orgs_from_ministry :=
    (table.filter (fun r => r.ministry_id == some inputId)).map (fun r => r.mdo_id)
  (if is_department && !is_ministry then orgs_from_department else []) ++
    (if is_ministry then orgs_from_ministry else [])

/-- The module-level `_mdo_org_cache`, as an explicit key/value map. -/
abbrev OrgCache := List (String × List String)

def cacheLookup (c : OrgCache) (k : String) : Option (List String) :=
  (c.find? (fun p => p.1 == k)).map (fun p => p.2)

def cacheInsert (c : OrgCache) (k : String) (v : List String) : OrgCache :=
  (k, v) :: c.filter (fun p => !(p.1 == k))

/-- `ReportService._get_mdo_id_org_list` (report_service.py lines 270-316):
on a cache hit the stored list object is returned as-is (no query); on a
miss the hierarchy query runs against the warehouse (`hierarchyExec` is
the outcome of that single round-trip: the table, or a backend failure),
the result list is stored in the cache and returned.  A backend failure
propagates as the exception, before any cache write. -/
def getMdoIdOrgList (hierarchyExec : Except PyErr (List HierarchyRow))
    (cache : OrgCache) (mdoId : String) :
    Except PyErr (List String × OrgCache) :=
  match cacheLookup cache mdoId with
  | some l => .ok (l, cache)
  | none =>
    match hierarchyExec with
    | .error e => .error e
    | .ok table =>
      let l := orgHierarchyQuery table mdoId
      .ok (l, cacheInsert cache mdoId l)

/-- Python truthiness of an optional string: falsy iff absent or empty. -/
def pyFalsy : Option String → Bool
  | none => true
  | some s => s == ""

/-- Python `str(...)` of an optional string: `None` renders as "None". -/
def pyStrOpt : Option String → String
  | none => "None"
  | some s => s

/-- `ReportService.isValidOrg` (report_service.py lines 318-345).  Returns
`false` for a falsy `request_org_id` or `x_org_id`; otherwise resolves the
scope of `x_org_id`, appends `x_org_id` itself to the returned list
(`org_list.append(x_org_id)` — which, because the list is the very object
stored in the cache, also mutates the cache entry, modelled by the
`cacheInsert` write-back), and tests membership of `request_org_id`.
Every exception from resolution is caught and turned into `false`; the
total return type `Bool × OrgCache` embeds "never raises". -/
def isValidOrg (hierarchyExec : Except PyErr (List HierarchyRow))
    (cache : OrgCache) (xOrgId requestOrgId : Option String) :
    Bool × OrgCache :=
  if pyFalsy requestOrgId then (false, cache)
  else if pyFalsy xOrgId then (false, cache)
  else
    let x := pyStrOpt xOrgId
    match getMdoIdOrgList hierarchyExec cache x with
    | .error _ => (false, cache)
    | .ok (org_list, c1) =>
      let org_list2 := org_list ++ [x]
      let c2 := cacheInsert c1 x org_list2
      (decide (pyStrOpt requestOrgId ∈ org_list2), c2)

/-! ### Filter Specification Engine (report_service_v2.py, `_process_filters`) -/

/-- The `type` field of one filter-configuration entry. -/
inductive FilterKind where
  | fstring | flist | fcomparison | fboolean
deriving DecidableEq, Repr

/-- One entry of a filter configuration (constants.py JSON objects). -/
structure FilterCfg where
  type : FilterKind
  valid_operators : List String := []
  values : List (String × Bool) := []
deriving Repr

/-- A filter configuration: ordered field-name/spec pairs. -/
abbrev FilterConfig := List (String × FilterCfg)

/-- A caller-supplied filter value: a Python string, list of strings, or
`None` (the shapes the endpoints accept). -/
inductive PyVal where
  | vstr (s : String)
  | vlist (xs : List String)
  | vnone
deriving DecidableEq, Repr

/-- Python truthiness of a filter value. -/
def PyVal.truthy : PyVal → Bool
  | .vstr s => !(s == "")
  | .vlist xs => !xs.isEmpty
  | .vnone => false

/-- Python `str(...)` of a filter value (list rendering as in CPython). -/
def PyVal.pyStr : PyVal → String
  | .vstr s => s
  | .vlist xs =>
      "[" ++ (String.intercalate ", " (xs.map (fun x => "\x27" ++ (x ++ "\x27"))) ++ "]")
  | .vnone => "None"

/-- The value of a Python float parsed from a plain decimal literal:
sign, integer-part digits, fraction digits. -/
structure PyFloat where
  neg : Bool
  ip : List Char
  fp : List Char
deriving DecidableEq, Repr

/-- Model of Python `float(value)` restricted to plain decimal literals
(optional sign, digits, optional `.` and fraction digits — the only forms
the filter engine is specified over); any other string fails, as the
builtin raises `ValueError` there. -/
def parseFloat (s : String) : Option PyFloat :=
  let cs := s.toList
  let (neg, rest) :=
    match cs with
    | '-' :: r => (true, r)
    | '+' :: r => (false, r)
    | r => (false, r)
  let ip := rest.takeWhile Char.isDigit
  let rest2 := rest.dropWhile Char.isDigit
  match rest2 with
  | [] => if ip.isEmpty then none else some ⟨neg, ip, []⟩
  | '.' :: r =>
    let fp := r.takeWhile Char.isDigit
    let r2 := r.dropWhile Char.isDigit
    if r2.isEmpty && !(ip.isEmpty && fp.isEmpty) then some ⟨neg, ip, fp⟩ else none
  | _ => none

/-- Model of Python `str(float(...))`/f-string formatting for values
parsed by `parseFloat`: leading zeros of the integer part and trailing
zeros of the fraction are dropped, each part shows at least one digit
(so `float("75")` renders as "75.0"). -/
def formatFloat (f : PyFloat) : String :=
  let ipD := match f.ip.dropWhile (fun c => c == '0') with | [] => ['0'] | r => r
  let fpD := match (f.fp.reverse.dropWhile (fun c => c == '0')).reverse with
    | [] => ['0'] | r => r
  (if f.neg then "-" else "") ++ (String.mk ipD ++ ("." ++ String.mk fpD))

/-- The whitespace characters removed by Python `str.strip()`. -/
def isPySpace (c : Char) : Bool :=
  c == ' ' || c == '\t' || c == '\n' || c == '\r' || c == '\x0b' || c == '\x0c'

/-- Python `str.strip()` with no argument. -/
def pyStrip (s : String) : String :=
  String.mk (((s.toList.dropWhile isPySpace).reverse.dropWhile isPySpace).reverse)

/-- Python `str.startswith(p)`. -/
def strStartsWith (s p : String) : Bool :=
  p.toList.isPrefixOf s.toList

/-- Python slicing `s[n:]` (by character count). -/
def strDrop (s : String) (n : Nat) : String :=
  String.mk (s.toList.drop n)

/-- The operator loop of the `comparison` branch of `_process_filters`
(report_service_v2.py lines 42-51): operators are tried in their declared
order; the first one that prefixes the raw value has the remainder parsed
as a float — on success the fragment is emitted and the loop breaks, on
parse failure a warning is logged and the loop continues with the
remaining operators. -/
def compLoop (name : String) (filterStr : String) : List String → Option String
  | [] => none
  | op :: rest =>
    if strStartsWith filterStr op then
      match parseFloat (pyStrip (strDrop filterStr op.length)) with
      | some f => some (name ++ (" " ++ (op ++ (" " ++ formatFloat f))))
      | none => compLoop name filterStr rest
    else compLoop name filterStr rest

/-- One configured field of `_process_filters` (report_service_v2.py
lines 31-58), dispatching on the declared `type`.  A boolean-typed field
whose value is a list would raise `TypeError` in Python (unhashable dict
key); no endpoint passes that shape and it is modelled as no fragment. -/
def processOne (parts : List String) (name : String) (v : PyVal) (cfg : FilterCfg) :
    List String :=
  match cfg.type with
  | .fstring =>
    if v.truthy then parts ++ [name ++ (" = \x27" ++ (v.pyStr ++ "\x27"))] else parts
  | .flist =>
    match v with
    | .vlist xs =>
      if !xs.isEmpty then
        parts ++ [name ++ (" IN (" ++
          (String.intercalate ", " (xs.map (fun x => "\x27" ++ (x ++ "\x27"))) ++ ")"))]
      else parts
    | _ => parts
  | .fcomparison =>
    if v.truthy then
      match compLoop name (pyStrip v.pyStr) cfg.valid_operators with
      | some frag => parts ++ [frag]
      | none => parts
    else parts
  | .fboolean =>
    match v with
    | .vstr s =>
      match (cfg.values.find? (fun p => p.1 == s)).map (fun p => p.2) with
      | some b => parts ++ [name ++ (" = " ++ (if b then "TRUE" else "FALSE"))]
      | none => parts
    | _ => parts

/-- `ReportServiceV2._process_filters` (report_service_v2.py lines 20-60):
iterate the caller's filters in order; fields absent from the active
configuration are ignored, the reserved `mdo_id_list` field is skipped,
every other field is dispatched per its configured kind. -/
def processFilters (filters : List (String × PyVal)) (config : FilterConfig)
    (parts : List String) : List String :=
  match filters with
  | [] => parts
  | (name, v) :: rest =>
    let parts' :=
      match config.find? (fun p => p.1 == name) with
      | none => parts
      | some pc =>
        if name == "mdo_id_list" then parts else processOne parts name v pc.2
    processFilters rest config parts'

/-- Default `ENROLMENT_FILTER_CONFIG` (constants.py lines 35-43). -/
def ENROLMENT_FILTER_CONFIG : FilterConfig :=
  [("content_id", ⟨.flist, [], []⟩),
   ("mdo_id_list", ⟨.flist, [], []⟩),
   ("user_id", ⟨.flist, [], []⟩),
   ("content_progress_percentage", ⟨.fcomparison, [">=", "=<", ">", "<", "="], []⟩),
   ("certificate_generated", ⟨.fstring, [], []⟩)]

/-- Default `USER_FILTER_CONFIG` (constants.py lines 45-55).  The extra
`values` metadata of the string-typed `status` field is never read by the
string branch and is not modelled. -/
def USER_FILTER_CONFIG : FilterConfig :=
  [("mdo_id_list", ⟨.flist, [], []⟩),
   ("status", ⟨.fstring, [], []⟩),
   ("user_registration_date", ⟨.fcomparison, [">=", "<=", ">", "<", "="], []⟩),
   ("is_verified_karmayogi",
     ⟨.fboolean, [], [("True", true), ("False", false), ("true", true), ("false", false)]⟩),
   ("groups", ⟨.flist, [], []⟩),
   ("user_id", ⟨.flist, [], []⟩),
   ("designation", ⟨.flist, [], []⟩)]

/-- Default `USER_REPORT_FILTER_CONFIG` (constants.py lines 57-64). -/
def USER_REPORT_FILTER_CONFIG : FilterConfig :=
  [("content_id", ⟨.flist, [], []⟩),
   ("mdo_id_list", ⟨.flist, [], []⟩),
   ("content_progress_percentage", ⟨.fcomparison, [">", "<", ">=", "<=", "="], []⟩),
   ("certificate_generated", ⟨.fstring, [], []⟩)]

/-! ### Streaming Row Transformer: masking and CSV rendering -/

/-- Python `str.split(sep)` on character lists: always returns at least
one (possibly empty) chunk. -/
def split (sep : Char) : List Char → List (List Char)
  | [] => [[]]
  | c :: cs =>
    let r := split sep cs
    if c == sep then [] :: r
    else
      match r with
      | h :: t => (c :: h) :: t
      | [] => [[c]]

/-- Join chunks with a separator character (`sep.join(...)`). -/
def joinWith (sep : Char) : List (List Char) → List Char
  | [] => []
  | [x] => x
  | x :: xs => x ++ sep :: joinWith sep xs

/-- Email masking from `generate_csv_stream` (report_service_v2.py lines
378-385 and report_service.py lines 235-242): split on `@`; with exactly
two parts keep the local part and replace every dot-separated domain
label by asterisks of the same length; otherwise keep only `parts[0]`. -/
def maskEmailL (e : List Char) : List Char :=
  let parts := split '@' e
  match parts with
  | [p0, p1] =>
    p0 ++ '@' :: joinWith '.' ((split '.' p1).map (fun lab => List.replicate lab.length '*'))
  | _ => parts.headD []

/-- Phone masking from `generate_csv_stream` (report_service_v2.py lines
388-393): keep the last four characters, star the rest; star everything
when shorter than four. -/
def maskPhoneL (p : List Char) : List Char :=
  if 4 ≤ p.length then List.replicate (p.length - 4) '*' ++ p.drop (p.length - 4)
  else List.replicate p.length '*'

/-- Character-level description of domain masking: dots keep their
positions, every other character becomes an asterisk. -/
def starChar (c : Char) : Char := if c == '.' then '.' else '*'

def maskEmail (s : String) : String := String.mk (maskEmailL s.toList)

def maskPhone (s : String) : String := String.mk (maskPhoneL s.toList)

/-- A result row as the `dict(zip(cols, row))` of the generator body. -/
abbrev RowDict := List (String × String)

/-- Python dict lookup (last binding wins, matching dict construction). -/
def dget (d : RowDict) (k : String) : Option String :=
  (d.reverse.find? (fun p => p.1 == k)).map (fun p => p.2)

/-- Python dict item assignment. -/
def dset (d : RowDict) (k : String) (v : String) : RowDict :=
  d.map (fun p => if p.1 == k then (p.1, v) else p)

/-- The masking block of the user-data `generate_csv_stream`
(report_service_v2.py lines 376-393, identically report_service.py lines
233-250): when masking is enabled, a present truthy `email` and a present
truthy `phone_number` are replaced by their masked forms; everything else
is untouched. -/
def maskRowDict (maskingEnabled : Bool) (d : RowDict) : RowDict :=
  if maskingEnabled then
    let d1 :=
      match dget d "email" with
      | some e => if e == "" then d else dset d "email" (maskEmail e)
      | none => d
    match dget d1 "phone_number" with
    | some p => if p == "" then d1 else dset d1 "phone_number" (maskPhone p)
    | none => d1
  else d

/-- One data line of the user-data stream: the row dict, masked per the
flag, re-rendered in column order with `row_dict.get(col, '')`. -/
def renderUserRow (maskingEnabled : Bool) (cols : List String) (vals : List String) :
    String :=
  let d := maskRowDict maskingEnabled (List.zip cols vals)
  String.intercalate "|" (cols.map (fun c => (dget d c).getD ""))

/-- The enrolment-report `generate_csv_stream` (report_service_v2.py
lines 141-150 and 268-278, report_service.py lines 98-108 and 168-177):
a header line then each row joined with `|`; no masking is performed and
the global masking flag is never consulted. -/
def generateCsvStreamPlain (cols : List String) (rows : List (List String)) :
    List String :=
  (String.intercalate "|" cols ++ "\n") ::
    rows.map (fun r => String.intercalate "|" r ++ "\n")

/-- The user-data `generate_csv_stream` (report_service_v2.py lines
371-401, report_service.py lines 228-258): header line, then each row
masked per the global flag and re-joined with `|`. -/
def generateCsvStreamMasked (maskingEnabled : Bool) (cols : List String)
    (rows : List (List String)) : List String :=
  (String.intercalate "|" cols ++ "\n") ::
    rows.map (fun r => renderUserRow maskingEnabled cols r ++ "\n")

/-! ### Query Assemblers (report_service_v2.py and report_service.py) -/

/-- A tabular query result (pandas DataFrame): named columns, rows of
string-rendered cells. -/
structure Table where
  cols : List String
  rows : List (List String)
deriving DecidableEq, Repr

/-- Cell of `row` under column `c` (label-based pandas indexing). -/
def columnValue (cols : List String) (row : List String) (c : String) : String :=
  match cols.findIdx? (fun x => x == c) with
  | some i => row.getD i ""
  | none => ""

/-- The required-columns projection shared by every operation: requested
columns that exist are kept in the caller's order, missing ones are
dropped with a logged warning; an empty request keeps the table as-is. -/
def projectColumns (requiredColumns : List String) (t : Table) : Table :=
  if requiredColumns.isEmpty then t
  else
    let existing := requiredColumns.filter (fun c => t.cols.contains c)
    ⟨existing, t.rows.map (fun r => existing.map (fun c => columnValue t.cols r c))⟩

/-- `MASTER_ENROLMENTS_TABLE` under the constants.py defaults. -/
def MASTER_ENROLMENTS_TABLE : String := "table.data.table"

/-- `MASTER_USER_TABLE` under the constants.py defaults. -/
def MASTER_USER_TABLE : String := "table.data.table"

/-- Quote an id for an SQL `in (...)` list, as `f"'{mid}'"` does. -/
def sqlQuote (s : String) : String := "\x27" ++ (s ++ "\x27")

/-- The org-id `in`-clause appended to every org-scoped report query. -/
def mdoInClause (strs : List String) : String :=
  "mdo_id in (" ++ (String.intercalate ", " (strs.map sqlQuote) ++ ")")

/-- The org-id-set branch of `generate_report`/`generate_org_user_report`
(report_service_v2.py lines 89-106 and 319-336): a non-empty list under
the reserved `mdo_id_list` filter overrides everything (no resolver
call); otherwise a full report resolves the hierarchy scope and appends
the input org id — mutating the cached list object, modelled by the
write-back — and a plain report uses the input org id alone.  The `Nat`
component counts invocations of `_get_mdo_id_org_list`. -/
def enrolmentMdoBranch (hierarchyExec : Except PyErr (List HierarchyRow))
    (cache : OrgCache) (orgId : Option String) (isFullReportRequired : Bool)
    (additionalFilters : List (String × PyVal)) :
    Except PyErr (List String × OrgCache × Nat) :=
  let fallback : Except PyErr (List String × OrgCache × Nat) :=
    if isFullReportRequired then
      match getMdoIdOrgList hierarchyExec cache (pyStrOpt orgId) with
      | .error e => .error e
      | .ok (l, c1) =>
        let key := pyStrOpt orgId
        let l2 := l ++ [key]
        .ok (l2, cacheInsert c1 key l2, 1)
    else .ok ([pyStrOpt orgId], cache, 0)
  match ((additionalFilters.find? (fun p => p.1 == "mdo_id_list")).map
      (fun p => p.2)).getD (.vlist []) with
  | .vlist xs => if xs.isEmpty then fallback else .ok (xs, cache, 0)
  | _ => fallback

/-- The date clause of `generate_report` (report_service_v2.py lines
86-87): present only when both bounds are truthy. -/
def enrolDateClause (startDate endDate : Option String) : List String :=
  if !pyFalsy startDate && !pyFalsy endDate then
    ["enrolled_on BETWEEN \x27" ++ (pyStrOpt startDate ++ ("\x27 AND \x27" ++
      (pyStrOpt endDate ++ "\x27")))]
  else []

/-- Same for `generate_org_user_report` (lines 316-317), over the
user-registration timestamp. -/
def userDateClause (startDate endDate : Option String) : List String :=
  if !pyFalsy startDate && !pyFalsy endDate then
    ["user_registration_date BETWEEN \x27" ++ (pyStrOpt startDate ++ ("\x27 AND \x27" ++
      (pyStrOpt endDate ++ "\x27")))]
  else []

/-- The complete `where_clause_parts` assembly of `generate_report`
(report_service_v2.py lines 83-115): date clause, then the org-id
`in`-clause, then the configured additional filters. -/
def enrolmentWhereParts (hierarchyExec : Except PyErr (List HierarchyRow))
    (cache : OrgCache) (startDate endDate orgId : Option String)
    (isFullReportRequired : Bool) (additionalFilters : List (String × PyVal)) :
    Except PyErr (List String × OrgCache × Nat) :=
  match enrolmentMdoBranch hierarchyExec cache orgId isFullReportRequired
      additionalFilters with
  | .error e => .error e
  | .ok (mdoStrs, c, n) =>
    let parts1 := enrolDateClause startDate endDate ++ [mdoInClause mdoStrs]
    .ok (processFilters additionalFilters ENROLMENT_FILTER_CONFIG parts1, c, n)

/-- Same assembly for `generate_org_user_report` (lines 313-345). -/
def orgUserWhereParts (hierarchyExec : Except PyErr (List HierarchyRow))
    (cache : OrgCache) (startDate endDate mdoId : Option String)
    (isFullReportRequired : Bool) (additionalFilters : List (String × PyVal)) :
    Except PyErr (List String × OrgCache × Nat) :=
  match enrolmentMdoBranch hierarchyExec cache mdoId isFullReportRequired
      additionalFilters with
  | .error e => .error e
  | .ok (mdoStrs, c, n) =>
    let parts1 := userDateClause startDate endDate ++ [mdoInClause mdoStrs]
    .ok (processFilters additionalFilters USER_FILTER_CONFIG parts1, c, n)

/-- Outcome of an org-scoped report operation: the stream (absent on "no
data" and on any caught exception), the cache left behind, and the list
of query texts submitted to `run_query`. -/
structure ReportResult where
  stream : Option (List String)
  cache : OrgCache
  queries : List String

/-- `ReportServiceV2.generate_report` (report_service_v2.py lines
62-157).  `queryExec` is the warehouse (`run_query`); the surrounding
`try`/`except` converts every exception — resolver failure included —
into a `none` stream, exactly as `return None` at lines 155-157. -/
def generate_report (maskingEnabled : Bool)
    (hierarchyExec : Except PyErr (List HierarchyRow))
    (queryExec : String → Except PyErr Table) (cache : OrgCache)
    (startDate endDate orgId : Option String) (isFullReportRequired : Bool)
    (requiredColumns : List String) (additionalFilters : List (String × PyVal)) :
    ReportResult :=
  match enrolmentWhereParts hierarchyExec cache startDate endDate orgId
      isFullReportRequired additionalFilters with
  | .error _ => ⟨none, cache, []⟩
  | .ok (parts, c2, _) =>
    let q := "SELECT * FROM `" ++ (MASTER_ENROLMENTS_TABLE ++ ("` WHERE " ++
      String.intercalate " AND " parts))
    match queryExec q with
    | .error _ => ⟨none, c2, [q]⟩
    | .ok t =>
      if t.rows.isEmpty then ⟨none, c2, [q]⟩
      else
        let t2 := projectColumns requiredColumns t
        ⟨some (generateCsvStreamPlain t2.cols t2.rows), c2, [q]⟩

/-- `ReportServiceV2.generate_org_user_report` (report_service_v2.py
lines 292-408): identical shape over the user table, with the masked
stream generator; its `except` (lines 406-408) likewise returns `None`. -/
def generate_org_user_report (maskingEnabled : Bool)
    (hierarchyExec : Except PyErr (List HierarchyRow))
    (queryExec : String → Except PyErr Table) (cache : OrgCache)
    (mdoId : Option String) (isFullReportRequired : Bool)
    (requiredColumns : List String)
    (userCreationStartDate userCreationEndDate : Option String)
    (additionalFilters : List (String × PyVal)) : ReportResult :=
  match orgUserWhereParts hierarchyExec cache userCreationStartDate
      userCreationEndDate mdoId isFullReportRequired additionalFilters with
  | .error _ => ⟨none, cache, []⟩
  | .ok (parts, c2, _) =>
    let q := "SELECT * FROM `" ++ (MASTER_USER_TABLE ++ ("` WHERE " ++
      String.intercalate " AND " parts))
    match queryExec q with
    | .error _ => ⟨none, c2, [q]⟩
    | .ok t =>
      if t.rows.isEmpty then ⟨none, c2, [q]⟩
      else
        let t2 := projectColumns requiredColumns t
        ⟨some (generateCsvStreamMasked maskingEnabled t2.cols t2.rows), c2, [q]⟩

/-- `ReportService.fetch_master_user_data` (report_service.py lines
186-266), the v1 counterpart of the user-by-org report: no additional
filters, the date filter appended after the org clause, the same masked
stream generator, and the same catch-all `return None`. -/
def fetch_master_user_data (maskingEnabled : Bool)
    (hierarchyExec : Except PyErr (List HierarchyRow))
    (queryExec : String → Except PyErr Table) (cache : OrgCache)
    (mdoId : Option String) (isFullReportRequired : Bool)
    (requiredColumns : List String)
    (userCreationStartDate userCreationEndDate : Option String) : ReportResult :=
  let scopeRes : Except PyErr (List String × OrgCache) :=
    if isFullReportRequired then
      match getMdoIdOrgList hierarchyExec cache (pyStrOpt mdoId) with
      | .error e => .error e
      | .ok (l, c1) =>
        let key := pyStrOpt mdoId
        let l2 := l ++ [key]
        .ok (l2, cacheInsert c1 key l2)
    else .ok ([pyStrOpt mdoId], cache)
  match scopeRes with
  | .error _ => ⟨none, cache, []⟩
  | .ok (mdoStrs, c2) =>
    let dateFilter := match userDateClause userCreationStartDate userCreationEndDate with
      | [d] => " AND " ++ d
      | _ => ""
    let q := "SELECT * FROM `" ++ (MASTER_USER_TABLE ++ ("` WHERE " ++
      (mdoInClause mdoStrs ++ dateFilter)))
    match queryExec q with
    | .error _ => ⟨none, c2, [q]⟩
    | .ok t =>
      if t.rows.isEmpty then ⟨none, c2, [q]⟩
      else
        let t2 := projectColumns requiredColumns t
        ⟨some (generateCsvStreamMasked maskingEnabled t2.cols t2.rows), c2, [q]⟩

/-- `ReportServiceV2.generate_user_report` (report_service_v2.py lines
159-290), the enrolment-by-user report: resolve user ids from the
identity filters, optionally authorization-check a differing caller org
(raising `ValueError` on mismatch — this operation re-raises instead of
catching, hence the `Except` result), then query enrolments and stream
them with the plain (unmasking) generator. -/
def generate_user_report (maskingEnabled : Bool)
    (hierarchyExec : Except PyErr (List HierarchyRow))
    (queryExec : String → Except PyErr Table) (cache : OrgCache)
    (email phone ehrmsId startDate endDate orgId : Option String)
    (requiredColumns : List String) (additionalFilters : List (String × PyVal)) :
    Except PyErr (Option (List String)) × OrgCache :=
  if !(!pyFalsy email || !pyFalsy phone || !pyFalsy ehrmsId) then (.ok none, cache)
  else
    let userFilters :=
      (if !pyFalsy email then ["email = " ++ sqlQuote (pyStrOpt email)] else []) ++
      (if !pyFalsy phone then ["phone_number = " ++ sqlQuote (pyStrOpt phone)] else []) ++
      (if !pyFalsy ehrmsId then
        ["external_system_id = " ++ sqlQuote (pyStrOpt ehrmsId)] else [])
    let userQuery := "SELECT user_id, mdo_id FROM `" ++ (MASTER_USER_TABLE ++
      ("` WHERE " ++ String.intercalate " AND " userFilters))
    match queryExec userQuery with
    | .error e => (.error e, cache)
    | .ok userDf =>
      if userDf.rows.isEmpty then (.ok none, cache)
      else
        let userIds := userDf.rows.map (fun r => columnValue userDf.cols r "user_id")
        let userMdoId := columnValue userDf.cols (userDf.rows.headD []) "mdo_id"
        let orgCheck : Except PyErr OrgCache :=
          if !pyFalsy orgId && !(pyStrOpt orgId == userMdoId) then
            match getMdoIdOrgList hierarchyExec cache (pyStrOpt orgId) with
            | .error e => .error e
            | .ok (l, c1) =>
              let key := pyStrOpt orgId
              let l2 := l ++ [key]
              let c2 := cacheInsert c1 key l2
              if userMdoId ∈ l2 then .ok c2
              else .error ("Invalid organization ID for user: " ++ key)
          else .ok cache
        match orgCheck with
        | .error e => (.error e, cache)
        | .ok c2 =>
          let parts1 := ["user_id IN (" ++
              (String.intercalate ", " (userIds.map sqlQuote) ++ ")")] ++
            enrolDateClause startDate endDate
          let parts := processFilters additionalFilters USER_REPORT_FILTER_CONFIG parts1
          let q := "SELECT * FROM `" ++ (MASTER_ENROLMENTS_TABLE ++ ("` WHERE " ++
            String.intercalate " AND " parts))
          match queryExec q with
          | .error e => (.error e, c2)
          | .ok t =>
            if t.rows.isEmpty then (.ok none, c2)
            else
              let t2 := projectColumns requiredColumns t
              (.ok (some (generateCsvStreamPlain t2.cols t2.rows)), c2)

/-! ### Helper lemmas -/

/-- Each configured field only ever appends to the clause list. -/
theorem processOne_extends (parts : List String) (name : String) (v : PyVal)
    (cfg : FilterCfg) : ∃ extra, processOne parts name v cfg = parts ++ extra := by
  unfold processOne
  repeat' split
  all_goals first
    | exact ⟨_, rfl⟩
    | exact ⟨[], (List.append_nil parts).symm⟩

/-- The filter engine only ever appends to the clause list. -/
theorem processFilters_extends (filters : List (String × PyVal)) :
    ∀ (config : FilterConfig) (parts : List String),
      ∃ extra, processFilters filters config parts = parts ++ extra := by
  induction filters with
  | nil =>
    intro config parts
    exact ⟨[], (List.append_nil parts).symm⟩
  | cons hd tl ih =>
    intro config parts
    obtain ⟨name, v⟩ := hd
    have hstep : processFilters ((name, v) :: tl) config parts =
        processFilters tl config
          (match config.find? (fun p => p.1 == name) with
           | none => parts
           | some pc =>
             if name == "mdo_id_list" then parts else processOne parts name v pc.2) :=
      rfl
    rw [hstep]
    obtain ⟨e1, h1⟩ : ∃ e1,
        (match config.find? (fun p => p.1 == name) with
         | none => parts
         | some pc =>
           if name == "mdo_id_list" then parts else processOne parts name v pc.2)
          = parts ++ e1 := by
      repeat' split
      · exact ⟨[], (List.append_nil parts).symm⟩
      · exact ⟨[], (List.append_nil parts).symm⟩
      · exact processOne_extends parts name v _
    rw [h1]
    obtain ⟨e2, h2⟩ := ih config (parts ++ e1)
    exact ⟨e1 ++ e2, by rw [h2, List.append_assoc]⟩

/-- Splitting a list free of the separator yields one chunk. -/
theorem split_of_not_mem {sep : Char} : ∀ {l : List Char}, sep ∉ l →
    split sep l = [l] := by
  intro l
  induction l with
  | nil => intro _; rfl
  | cons c cs ih =>
    intro h
    have hc : ¬ c = sep := fun e => h (e ▸ List.mem_cons_self c cs)
    have hcs : sep ∉ cs := fun m => h (List.mem_cons_of_mem c m)
    simp [split, ih hcs, hc]

/-- Splitting around the first separator occurrence. -/
theorem split_append (sep : Char) : ∀ (l r : List Char), sep ∉ l →
    split sep (l ++ sep :: r) = l :: split sep r := by
  intro l
  induction l with
  | nil => intro r _; simp [split]
  | cons c cs ih =>
    intro r h
    have hc : ¬ c = sep := fun e => h (e ▸ List.mem_cons_self c cs)
    have hcs : sep ∉ cs := fun m => h (List.mem_cons_of_mem c m)
    simp [split, ih r hcs, hc]

/-- `split` never returns an empty chunk list. -/
theorem split_ne_nil (sep : Char) : ∀ (l : List Char), split sep l ≠ [] := by
  intro l
  induction l with
  | nil => simp [split]
  | cons c cs ih =>
    simp only [split]
    split
    · simp
    · split
      · simp
      · simp

/-- A list containing the separator splits into at least two chunks. -/
theorem two_le_split_length (sep : Char) : ∀ (d : List Char), sep ∈ d →
    2 ≤ (split sep d).length := by
  intro d
  induction d with
  | nil => intro h; cases h
  | cons c cs ih =>
    intro h
    by_cases hc : c = sep
    · subst hc
      have h1 : split c (c :: cs) = [] :: split c cs := by simp [split]
      rw [h1]
      have := split_ne_nil c cs
      cases hsp : split c cs with
      | nil => exact absurd hsp this
      | cons m t => simp
    · have hmem : sep ∈ cs := by
        cases h with
        | head => exact absurd rfl hc
        | tail _ hm => exact hm
      have h1 : split sep (c :: cs) =
          match split sep cs with
          | h :: t => (c :: h) :: t
          | [] => [[c]] := by simp [split, hc]
      rw [h1]
      cases hsp : split sep cs with
      | nil => exact absurd hsp (split_ne_nil sep cs)
      | cons m t =>
        have := ih hmem
        rw [hsp] at this
        simpa using this

/-- Pulling a chunk's head character out of a separator join. -/
theorem joinWith_cons_head (sep c : Char) (h : List Char)
    (t : List (List Char)) :
    joinWith sep ((c :: h) :: t) = c :: joinWith sep (h :: t) := by
  cases t <;> simp [joinWith]

/-- Per-label star-replacement joined back with dots equals the
character-wise `starChar` map: dot positions and label lengths are
preserved. -/
theorem maskDomain_eq : ∀ (d : List Char),
    joinWith '.' ((split '.' d).map (fun lab => List.replicate lab.length '*'))
      = d.map starChar := by
  intro d
  induction d with
  | nil => rfl
  | cons c cs ih =>
    by_cases hc : c = '.'
    · subst hc
      have h1 : split '.' ('.' :: cs) = [] :: split '.' cs := by simp [split]
      rw [h1]
      cases hsp : split '.' cs with
      | nil => exact absurd hsp (split_ne_nil '.' cs)
      | cons m t =>
        rw [hsp] at ih
        calc joinWith '.' (([] :: m :: t).map (fun lab => List.replicate lab.length '*'))
            = joinWith '.' ([] :: (m :: t).map (fun lab => List.replicate lab.length '*')) := rfl
          _ = '.' :: joinWith '.' ((m :: t).map (fun lab => List.replicate lab.length '*')) := by
              cases t <;> simp [joinWith]
          _ = '.' :: cs.map starChar := by rw [ih]
          _ = ('.' :: cs).map starChar := by simp [starChar]
    · have h1 : split '.' (c :: cs) =
          match split '.' cs with
          | h :: t => (c :: h) :: t
          | [] => [[c]] := by simp [split, hc]
      rw [h1]
      cases hsp : split '.' cs with
      | nil => exact absurd hsp (split_ne_nil '.' cs)
      | cons m t =>
        rw [hsp] at ih
        have hstar : starChar c = '*' := by simp [starChar, hc]
        calc joinWith '.' (((c :: m) :: t).map (fun lab => List.replicate lab.length '*'))
            = joinWith '.' (List.replicate (c :: m).length '*' ::
                t.map (fun lab => List.replicate lab.length '*')) := rfl
          _ = joinWith '.' (('*' :: List.replicate m.length '*') ::
                t.map (fun lab => List.replicate lab.length '*')) := rfl
          _ = '*' :: joinWith '.' (List.replicate m.length '*' ::
                t.map (fun lab => List.replicate lab.length '*')) := by
              exact joinWith_cons_head '.' '*' (List.replicate m.length '*') _
          _ = '*' :: joinWith '.' ((m :: t).map (fun lab => List.replicate lab.length '*')) := rfl
          _ = '*' :: cs.map starChar := by rw [ih]
          _ = (c :: cs).map starChar := by simp [hstar]

/-! ### Claim theorems -/

/-- Claim C1 (code evaluated at the failing input): the first resolution
of "D1" returns ["O1", "O2"] without the input id, but the caller
`isValidOrg` then appends "D1" to that very list object — the object the
cache holds — so the second call for "D1", served from the org-scope
cache, returns ["O1", "O2", "D1"], which includes the input id and
violates the invariant. -/
theorem getMdoIdOrgList_second_call_includes_input :
    (getMdoIdOrgList (.ok [⟨"O1", some "D1", none⟩, ⟨"O2", some "D1", none⟩]) [] "D1"
      = .ok (["O1", "O2"], [("D1", ["O1", "O2"])])) ∧
    ((isValidOrg (.ok [⟨"O1", some "D1", none⟩, ⟨"O2", some "D1", none⟩]) []
        (some "D1") (some "D1")).2 = [("D1", ["O1", "O2", "D1"])]) ∧
    (getMdoIdOrgList (.ok [⟨"O1", some "D1", none⟩, ⟨"O2", some "D1", none⟩])
        (isValidOrg (.ok [⟨"O1", some "D1", none⟩, ⟨"O2", some "D1", none⟩]) []
          (some "D1") (some "D1")).2 "D1"
      = .ok (["O1", "O2", "D1"], [("D1", ["O1", "O2", "D1"])])) :=
  ⟨rfl, rfl, rfl⟩

/-- Claim C2: the single hierarchy query returns all org ids whose
`ministry_id` equals the input whenever the input appears as a ministry
value (the ministry branch takes precedence regardless of department
status), all org ids whose `department_id` equals the input when it
appears as a department value only, and the empty set when it appears as
neither; the result is the union of the two guarded branches of the one
query. -/
theorem orgHierarchyQuery_branch_semantics (table : List HierarchyRow)
    (inputId : String) :
    ((∃ r ∈ table, r.ministry_id = some inputId) →
      orgHierarchyQuery table inputId =
        (table.filter (fun r => r.ministry_id == some inputId)).map
          (fun r => r.mdo_id)) ∧
    ((¬ ∃ r ∈ table, r.ministry_id = some inputId) →
      (∃ r ∈ table, r.department_id = some inputId) →
      orgHierarchyQuery table inputId =
        (table.filter (fun r => r.department_id == some inputId)).map
          (fun r => r.mdo_id)) ∧
    ((¬ ∃ r ∈ table, r.ministry_id = some inputId) →
      (¬ ∃ r ∈ table, r.department_id = some inputId) →
      orgHierarchyQuery table inputId = []) := by
  refine ⟨?_, ?_, ?_⟩
  · intro hmin
    have hM : table.any (fun r => r.ministry_id == some inputId) = true := by
      rw [List.any_eq_true]
      obtain ⟨r, hr, he⟩ := hmin
      exact ⟨r, hr, by simp [he]⟩
    simp [orgHierarchyQuery, hM]
  · intro hmin hdep
    have hM : table.any (fun r => r.ministry_id == some inputId) = false := by
      rw [List.any_eq_false]
      intro r hr hc
      exact hmin ⟨r, hr, by simpa using hc⟩
    have hD : table.any (fun r => r.department_id == some inputId) = true := by
      rw [List.any_eq_true]
      obtain ⟨r, hr, he⟩ := hdep
      exact ⟨r, hr, by simp [he]⟩
    simp [orgHierarchyQuery, hM, hD]
  · intro hmin hdep
    have hM : table.any (fun r => r.ministry_id == some inputId) = false := by
      rw [List.any_eq_false]
      intro r hr hc
      exact hmin ⟨r, hr, by simpa using hc⟩
    have hD : table.any (fun r => r.department_id == some inputId) = false := by
      rw [List.any_eq_false]
      intro r hr hc
      exact hdep ⟨r, hr, by simpa using hc⟩
    simp [orgHierarchyQuery, hM, hD]

/-- Witness for C2: a table where "M1" is simultaneously a ministry and a
department value — the ministry branch wins. -/
theorem orgHierarchyQuery_branch_semantics_witness :
    orgHierarchyQuery [⟨"O1", some "M1", some "M1"⟩, ⟨"O2", some "D2", some "M1"⟩]
      "M1" = ["O1", "O2"] :=
  ((orgHierarchyQuery_branch_semantics
      [⟨"O1", some "M1", some "M1"⟩, ⟨"O2", some "D2", some "M1"⟩] "M1").1
    ⟨⟨"O1", some "M1", some "M1"⟩, by simp, rfl⟩).trans rfl

/-- Claim C3: `isValidOrg` returns `false` — and, being a total function
into `Bool`, never raises — when either argument is absent or empty, and
also whenever the underlying scope resolution fails. -/
theorem isValidOrg_fail_closed (hex : Except PyErr (List HierarchyRow))
    (cache : OrgCache) (x req : Option String)
    (h : pyFalsy req = true ∨ pyFalsy x = true ∨
      ∃ e, getMdoIdOrgList hex cache (pyStrOpt x) = .error e) :
    (isValidOrg hex cache x req).1 = false := by
  unfold isValidOrg
  rcases h with h | h | ⟨e, he⟩
  · simp [h]
  · cases hq : pyFalsy req <;> simp [hq, h]
  · cases hq : pyFalsy req <;> cases hx : pyFalsy x <;> simp [hq, hx, he]

/-- Witness for C3: absent declared org, and a failing backend. -/
theorem isValidOrg_fail_closed_witness :
    ((isValidOrg (.ok []) [] none (some "org2")).1 = false) ∧
    ((isValidOrg (Except.error "backend down") [] (some "org1") (some "org2")).1
      = false) :=
  ⟨isValidOrg_fail_closed (.ok []) [] none (some "org2") (Or.inr (Or.inl rfl)),
   isValidOrg_fail_closed (Except.error "backend down") [] (some "org1")
     (some "org2") (Or.inr (Or.inr ⟨"backend down", rfl⟩))⟩

/-- Claim C4: for a non-empty org id `x` whose scope resolution succeeds,
`isValidOrg x x` is `true`, because `x` is appended to its own resolved
scope before the membership test (on a resolver failure the fail-closed
rule of C3 applies instead). -/
theorem isValidOrg_self_authorized (hex : Except PyErr (List HierarchyRow))
    (cache : OrgCache) (x : String) (l : List String) (c1 : OrgCache)
    (hx : ¬ x = "") (hres : getMdoIdOrgList hex cache x = .ok (l, c1)) :
    (isValidOrg hex cache (some x) (some x)).1 = true := by
  unfold isValidOrg
  have hf : pyFalsy (some x) = false := by simp [pyFalsy, hx]
  simp [hf, pyStrOpt, hres]

/-- Witness for C4. -/
theorem isValidOrg_self_authorized_witness :
    (isValidOrg (.ok []) [] (some "org1") (some "org1")).1 = true :=
  isValidOrg_self_authorized (.ok []) [] "org1" [] [("org1", [])]
    (by decide) rfl

/-- Claim C5 (counterexample): at a request with no date range and no
org/user selectors at all (absent org id, no `mdo_id_list`), the
assembler does not refuse — there is no `InvalidFilterSpec` error
anywhere in the code — and the query, constrained only by the
stringified absent org id `mdo_id in ('None')`, is executed. -/
theorem generate_report_executes_degenerate_query :
    ((generate_report true (.ok []) (fun _ => .ok ⟨["mdo_id"], [["x"]]⟩) []
        none none none false [] []).queries
      = ["SELECT * FROM `table.data.table` WHERE mdo_id in (\x27None\x27)"]) ∧
    ((generate_report true (.ok []) (fun _ => .ok ⟨["mdo_id"], [["x"]]⟩) []
        none none none false [] []).stream = some ["mdo_id\n", "x\n"]) :=
  ⟨rfl, rfl⟩

/-- Claim C5 (amended): the identity clause of an assembled enrolment
query is never empty — an org-id `in`-clause is always appended (an
absent org id is stringified to the literal 'None') — so no
unconstrained full-table query can arise, and the assembler has no
refusal path. -/
theorem enrolmentWhereParts_never_empty
    (hex : Except PyErr (List HierarchyRow)) (cache : OrgCache)
    (sd ed oid : Option String) (full : Bool)
    (af : List (String × PyVal)) (parts : List String) (c : OrgCache) (n : Nat)
    (h : enrolmentWhereParts hex cache sd ed oid full af = .ok (parts, c, n)) :
    parts ≠ [] ∧ ∃ s, ("mdo_id in (" ++ s) ∈ parts := by
  unfold enrolmentWhereParts at h
  cases hb : enrolmentMdoBranch hex cache oid full af with
  | error e => rw [hb] at h; exact absurd h (by simp)
  | ok r =>
    obtain ⟨mdoStrs, c', n'⟩ := r
    rw [hb] at h
    obtain ⟨extra, he⟩ := processFilters_extends af ENROLMENT_FILTER_CONFIG
      (enrolDateClause sd ed ++ [mdoInClause mdoStrs])
    have hparts : parts =
        (enrolDateClause sd ed ++ [mdoInClause mdoStrs]) ++ extra := by
      have := congrArg (fun z => match z with
        | Except.ok (p, _, _) => p
        | Except.error _ => ([] : List String)) h
      simpa [he] using this.symm
    subst hparts
    constructor
    · simp
    · exact ⟨String.intercalate ", " (mdoStrs.map sqlQuote) ++ ")",
        by simp [mdoInClause]⟩

/-- Witness for the amended C5, at the degenerate input of the
counterexample. -/
theorem enrolmentWhereParts_never_empty_witness :
    (["mdo_id in (\x27None\x27)"] : List String) ≠ [] ∧
      ∃ s, ("mdo_id in (" ++ s) ∈ (["mdo_id in (\x27None\x27)"] : List String) :=
  enrolmentWhereParts_never_empty (.ok []) [] none none none false []
    ["mdo_id in (\x27None\x27)"] [] 0 rfl

/-- Claim C6 (counterexample): it is not the case that a `None` result of
`generate_report` only arises from a successfully executed query with
zero rows — a backend failure is caught by the blanket `except` and also
returned as `None`, not surfaced as a distinct error. -/
theorem generate_report_none_not_only_no_rows :
    ¬ (∀ (queryExec : String → Except PyErr Table) (sd ed oid : Option String)
        (full : Bool) (rc : List String) (af : List (String × PyVal)),
        (generate_report true (.ok []) queryExec [] sd ed oid full rc af).stream
            = none →
        ∃ q t, queryExec q = .ok t ∧ t.rows = []) := by
  intro h
  obtain ⟨q, t, hq, _⟩ := h (fun _ => .error "backend failure") (some "2024-01-01")
    (some "2024-01-31") (some "org1") false [] [] rfl
  exact absurd hq (by simp)

/-- Claim C6 (amended): for the enrolment-by-org and user-by-org report
operations a `None` result arises both when the well-formed query
executes with zero rows and when the backend fails — the catch-all
handlers convert every exception into `None`, so backend failure is not
surfaced as a distinct error. -/
theorem report_ops_none_on_failure_or_empty (flag : Bool)
    (hex : Except PyErr (List HierarchyRow)) (cache : OrgCache)
    (sd ed oid mid usd ued : Option String) (full : Bool)
    (rc : List String) (af : List (String × PyVal)) (err : PyErr)
    (ecols : List String) (execFail execEmpty : String → Except PyErr Table)
    (hfail : ∀ q, execFail q = .error err)
    (hempty : ∀ q, execEmpty q = .ok ⟨ecols, []⟩) :
    ((generate_report flag hex execFail cache sd ed oid full rc af).stream = none) ∧
    ((generate_report flag hex execEmpty cache sd ed oid full rc af).stream
      = none) ∧
    ((generate_org_user_report flag hex execFail cache mid full rc usd ued
        af).stream = none) ∧
    ((generate_org_user_report flag hex execEmpty cache mid full rc usd ued
        af).stream = none) := by
  refine ⟨?_, ?_, ?_, ?_⟩
  · unfold generate_report
    cases hw : enrolmentWhereParts hex cache sd ed oid full af with
    | error e => simp
    | ok r => obtain ⟨parts, c2, n⟩ := r; simp [hfail]
  · unfold generate_report
    cases hw : enrolmentWhereParts hex cache sd ed oid full af with
    | error e => simp
    | ok r => obtain ⟨parts, c2, n⟩ := r; simp [hempty]
  · unfold generate_org_user_report
    cases hw : orgUserWhereParts hex cache usd ued mid full af with
    | error e => simp
    | ok r => obtain ⟨parts, c2, n⟩ := r; simp [hfail]
  · unfold generate_org_user_report
    cases hw : orgUserWhereParts hex cache usd ued mid full af with
    | error e => simp
    | ok r => obtain ⟨parts, c2, n⟩ := r; simp [hempty]

/-- Witness for the amended C6, with a concrete failing backend and a
concrete zero-row backend. -/
theorem report_ops_none_on_failure_or_empty_witness :
    ((generate_report true (.ok []) (fun _ => .error "boom") []
        (some "2024-01-01") (some "2024-01-31") (some "org1") false []
        []).stream = none) ∧
    ((generate_report true (.ok []) (fun _ => .ok ⟨["mdo_id"], []⟩) []
        (some "2024-01-01") (some "2024-01-31") (some "org1") false []
        []).stream = none) ∧
    ((generate_org_user_report true (.ok []) (fun _ => .error "boom") []
        (some "org1") false [] none none []).stream = none) ∧
    ((generate_org_user_report true (.ok []) (fun _ => .ok ⟨["mdo_id"], []⟩) []
        (some "org1") false [] none none []).stream = none) :=
  report_ops_none_on_failure_or_empty true (.ok []) []
    (some "2024-01-01") (some "2024-01-31") (some "org1") (some "org1")
    none none false [] [] "boom" ["mdo_id"]
    (fun _ => .error "boom") (fun _ => .ok ⟨["mdo_id"], []⟩)
    (fun _ => rfl) (fun _ => rfl)

/-- Claim C9: a non-empty list under the reserved `mdo_id_list` filter
makes the assembled org-id set exactly that list — the hierarchy resolver
is never invoked (call count 0), the cache is untouched, and the input
org id is not appended — and the filter engine never converts the
`mdo_id_list` field into a predicate fragment. -/
theorem mdo_id_list_override (hex : Except PyErr (List HierarchyRow))
    (cache : OrgCache) (sd ed oid : Option String) (full : Bool)
    (af : List (String × PyVal)) (xs : List String)
    (hfind : (af.find? (fun p => p.1 == "mdo_id_list")).map (fun p => p.2)
      = some (.vlist xs))
    (hne : xs ≠ []) :
    (∃ extra, enrolmentWhereParts hex cache sd ed oid full af =
      .ok ((enrolDateClause sd ed ++ [mdoInClause xs]) ++ extra, cache, 0)) ∧
    (∀ (v : PyVal) (rest : List (String × PyVal)) (config : FilterConfig)
        (parts : List String),
      processFilters (("mdo_id_list", v) :: rest) config parts =
        processFilters rest config parts) := by
  constructor
  · have hxs : xs.isEmpty = false := by
      cases xs with
      | nil => exact absurd rfl hne
      | cons a t => rfl
    have hb : enrolmentMdoBranch hex cache oid full af = .ok (xs, cache, 0) := by
      unfold enrolmentMdoBranch
      rw [hfind]
      simp [hxs]
    unfold enrolmentWhereParts
    rw [hb]
    obtain ⟨extra, he⟩ := processFilters_extends af ENROLMENT_FILTER_CONFIG
      (enrolDateClause sd ed ++ [mdoInClause xs])
    exact ⟨extra, by simp [he, List.append_assoc]⟩
  · intro v rest config parts
    have hskip : (match config.find? (fun p => p.1 == "mdo_id_list") with
        | none => parts
        | some pc =>
          if ("mdo_id_list" : String) == "mdo_id_list" then parts
          else processOne parts "mdo_id_list" v pc.2) = parts := by
      cases config.find? (fun p => p.1 == "mdo_id_list") <;> simp
    calc processFilters (("mdo_id_list", v) :: rest) config parts
        = processFilters rest config
            (match config.find? (fun p => p.1 == "mdo_id_list") with
             | none => parts
             | some pc =>
               if ("mdo_id_list" : String) == "mdo_id_list" then parts
               else processOne parts "mdo_id_list" v pc.2) := rfl
      _ = processFilters rest config parts := by rw [hskip]

/-- Witness for C9, with an explicit two-element override list. -/
theorem mdo_id_list_override_witness :
    (∃ extra, enrolmentWhereParts (.ok []) [] none none (some "org1") false
        [("mdo_id_list", PyVal.vlist ["o1", "o2"])] =
      .ok ((enrolDateClause none none ++ [mdoInClause ["o1", "o2"]]) ++ extra,
        [], 0)) ∧
    (processFilters [("mdo_id_list", PyVal.vstr "x")] USER_FILTER_CONFIG ["p"] =
      processFilters [] USER_FILTER_CONFIG ["p"]) :=
  ⟨(mdo_id_list_override (.ok []) [] none none (some "org1") false
      [("mdo_id_list", PyVal.vlist ["o1", "o2"])] ["o1", "o2"] rfl
      (by decide)).1,
   (mdo_id_list_override (.ok []) [] none none (some "org1") false
      [("mdo_id_list", PyVal.vlist ["o1", "o2"])] ["o1", "o2"] rfl
      (by decide)).2 (PyVal.vstr "x") [] USER_FILTER_CONFIG ["p"]⟩

/-- Claim C7: with a comparison field configured with operators
[">=", "=<", ">", "<", "="] checked in declared order, the input
">= 75" yields exactly one fragment `progress >= 75.0` (remainder parsed
as a number and float-rendered), while ">= abc" yields no fragment — and
the engine, being a total function, does not raise (the field is skipped
with a logged warning). -/
theorem comparison_filter_semantics (parts : List String) :
    (processFilters [("progress", PyVal.vstr ">= 75")]
        [("progress", ⟨.fcomparison, [">=", "=<", ">", "<", "="], []⟩)] parts
      = parts ++ ["progress >= 75.0"]) ∧
    (processFilters [("progress", PyVal.vstr ">= abc")]
        [("progress", ⟨.fcomparison, [">=", "=<", ">", "<", "="], []⟩)] parts
      = parts) :=
  ⟨rfl, rfl⟩

/-- Claim C8: with masking enabled, an email with exactly one `@` keeps
its local part while every character of every dot-separated domain label
becomes `*` (dot positions and label lengths preserved); an email with
zero or more than one `@` keeps only the portion before the first `@`;
a phone number keeps only its last four characters behind asterisks, and
one shorter than four characters is starred entirely. -/
theorem masking_field_semantics :
    (∀ (l d : List Char), '@' ∉ l → '@' ∉ d →
      maskEmailL (l ++ '@' :: d) = l ++ '@' :: d.map starChar) ∧
    (∀ (e : List Char), '@' ∉ e → maskEmailL e = e) ∧
    (∀ (l d : List Char), '@' ∉ l → '@' ∈ d → maskEmailL (l ++ '@' :: d) = l) ∧
    (∀ (p : List Char), 4 ≤ p.length →
      maskPhoneL p = List.replicate (p.length - 4) '*' ++ p.drop (p.length - 4)) ∧
    (∀ (p : List Char), p.length < 4 →
      maskPhoneL p = List.replicate p.length '*') ∧
    (maskEmail "a@corp.com" = "a@****.***") ∧
    (maskPhone "1234567890" = "******7890") := by
  refine ⟨?_, ?_, ?_, ?_, ?_, rfl, rfl⟩
  · intro l d hl hd
    unfold maskEmailL
    rw [split_append '@' l d hl, split_of_not_mem hd]
    simp [maskDomain_eq]
  · intro e he
    unfold maskEmailL
    rw [split_of_not_mem he]
    cases e <;> rfl
  · intro l d hl hd
    unfold maskEmailL
    rw [split_append '@' l d hl]
    cases hsp : split '@' d with
    | nil => exact absurd hsp (split_ne_nil '@' d)
    | cons m t =>
      cases t with
      | nil =>
        have := two_le_split_length '@' d hd
        rw [hsp] at this
        simp at this
      | cons t1 t2 => rfl
  · intro p h
    simp [maskPhoneL, h]
  · intro p h
    rw [maskPhoneL, if_neg (by omega)]

/-- Witness for C8, at the spec's own examples plus short-phone and
multi-`@` inputs. -/
theorem masking_field_semantics_witness :
    (maskEmailL ("a".toList ++ '@' :: "corp.com".toList)
      = "a".toList ++ '@' :: "corp.com".toList.map starChar) ∧
    (maskEmailL "nodomain".toList = "nodomain".toList) ∧
    (maskEmailL ("a".toList ++ '@' :: "b@c.com".toList) = "a".toList) ∧
    (maskPhoneL "1234567890".toList
      = List.replicate ("1234567890".toList.length - 4) '*' ++
          "1234567890".toList.drop ("1234567890".toList.length - 4)) ∧
    (maskPhoneL "123".toList = List.replicate "123".toList.length '*') :=
  ⟨masking_field_semantics.1 "a".toList "corp.com".toList (by decide) (by decide),
   masking_field_semantics.2.1 "nodomain".toList (by decide),
   masking_field_semantics.2.2.1 "a".toList "b@c.com".toList (by decide)
     (by decide),
   masking_field_semantics.2.2.2.1 "1234567890".toList (by decide),
   masking_field_semantics.2.2.2.2.1 "123".toList (by decide)⟩

/-- Claim C10: only the user-by-org streaming generators (v2
`generate_org_user_report` and v1 `fetch_master_user_data`) apply
email/phone masking; the enrolment-by-org (`generate_report`) and
enrolment-by-user (`generate_user_report`) exports emit those columns
raw whatever the global masking flag is. -/
theorem masking_only_user_streams : ∀ (flag : Bool),
    ((generate_report flag (.ok [])
        (fun _ => .ok ⟨["email", "phone_number"], [["a@corp.com", "1234567890"]]⟩)
        [] (some "2024-01-01") (some "2024-01-31") (some "org1") false []
        []).stream
      = some ["email|phone_number\n", "a@corp.com|1234567890\n"]) ∧
    ((generate_user_report flag (.ok [])
        (fun q =>
          if q == "SELECT user_id, mdo_id FROM `table.data.table` WHERE email = \x27a@x.com\x27"
          then .ok ⟨["user_id", "mdo_id"], [["u1", "org1"]]⟩
          else .ok ⟨["email", "phone_number"], [["a@corp.com", "1234567890"]]⟩)
        [] (some "a@x.com") none none none none none [] []).1
      = .ok (some ["email|phone_number\n", "a@corp.com|1234567890\n"])) ∧
    ((generate_org_user_report true (.ok [])
        (fun _ => .ok ⟨["email", "phone_number"], [["a@corp.com", "1234567890"]]⟩)
        [] (some "org1") false [] none none []).stream
      = some ["email|phone_number\n", "a@****.***|******7890\n"]) ∧
    ((fetch_master_user_data true (.ok [])
        (fun _ => .ok ⟨["email", "phone_number"], [["a@corp.com", "1234567890"]]⟩)
        [] (some "org1") false [] none none).stream
      = some ["email|phone_number\n", "a@****.***|******7890\n"]) :=
  fun _ => ⟨rfl, rfl, rfl, rfl⟩

end ReportGen
